import Mathlib

/-!
Verification of the request/cache/retry layer of the Cursor background-agent
MCP server (`cursor_agent_mcp_server.py`).

The Python code is shallowly embedded: every handler becomes a pure Lean
function from an explicit state (the server's cache fields, agent registry and
session reference) and an explicit network outcome (the decoded HTTP response,
or the raised exception) to the returned result envelope plus the updated
state.  Result dictionaries become structures whose fields mirror the dict
keys; `Option` marks keys that are absent in some variants.  Wall-clock time
(`time.time()`) is a `Nat` parameter in abstract time-units.  Each call record
additionally carries a `fetched` flag (respectively the executor carries an
`attempts` count and a `sleeps` trace) so that invocation counting, as used by
the specification's testable properties, is observable.
-/

namespace CursorMCP

/- ===== Decoded JSON values (response bodies and opaque payloads) ===== -/

/-- A decoded JSON value, as produced by `response.json()`. -/
inductive Json where
  | null
  | bool (b : Bool)
  | num (n : Int)
  | str (s : String)
  | arr (elems : List Json)
  | obj (fields : List (String × Json))

/- ===== Python dict as an association list ===== -/

/-- Python `d.get(key)` / `key in d` on a string-keyed dict. -/
def dictGet {α : Type} : List (String × α) → String → Option α
  | [], _ => Option.none
  | (k, v) :: rest, key => if k = key then some v else dictGet rest key

/-- Python `d[key] = value` on a string-keyed dict (replaces, keeps order). -/
def dictSet {α : Type} : List (String × α) → String → α → List (String × α)
  | [], key, value => [(key, value)]
  | (k, v) :: rest, key, value =>
      if k = key then (key, value) :: rest else (k, v) :: dictSet rest key value

/-- Python `response.get(key)` on a decoded JSON object (absent / non-object gives none). -/
def Json.lookup : Json → String → Option Json
  | Json.obj fields, key => dictGet fields key
  | _, _ => Option.none

/-- Python `response.get(key, default)`. -/
def Json.getD (j : Json) (key : String) (d : Json) : Json :=
  (j.lookup key).getD d

/-- Python `response.get(key, default)` where the code consumes the value as a
string (non-string values for these keys are outside the modelled inputs). -/
def Json.getStrD (j : Json) (key : String) (d : String) : String :=
  match j.lookup key with
  | some (Json.str s) => s
  | _ => d

/-- Python `response.get(key, [])` where the code consumes the value as a list. -/
def Json.getArrD (j : Json) (key : String) : List Json :=
  match j.getD key (Json.arr []) with
  | Json.arr xs => xs
  | _ => []

/- ===== Python string operations (structural, over character lists) ===== -/

/-- Whether `pat` is an initial segment of `s`. -/
def charsEqFrom (pat : List Char) (s : List Char) : Bool :=
  match pat, s with
  | [], _ => true
  | _ :: _, [] => false
  | p :: ps, c :: cs => p == c && charsEqFrom ps cs

/-- Python `pat in s` (substring containment). -/
def containsSub (pat : List Char) : List Char → Bool
  | [] => charsEqFrom pat []
  | c :: rest => charsEqFrom pat (c :: rest) || containsSub pat rest

/-- Python `pat in s` on strings. -/
def strContains (s pat : String) : Bool := containsSub pat.data s.data

/-- Python `s.replace(pat, repl)`: replace all non-overlapping occurrences left
to right.  `fuel` bounds the recursion; with `fuel = s.length` it is exact. -/
def replaceSub (pat repl : List Char) : Nat → List Char → List Char
  | _, [] => []
  | 0, s => s
  | fuel + 1, c :: rest =>
      if charsEqFrom pat (c :: rest) && !pat.isEmpty then
        repl ++ replaceSub pat repl fuel (List.drop (pat.length - 1) rest)
      else
        c :: replaceSub pat repl fuel rest

/-- Python `s.replace(pat, repl)`. -/
def pyReplace (s : List Char) (pat repl : String) : List Char :=
  replaceSub pat.data repl.data s.length s

/-- Python `s.rstrip("/")`. -/
def rstripSlashes (cs : List Char) : List Char :=
  (cs.reverse.dropWhile (fun c => c == '/')).reverse

/-- Python `s.split("/", 1)` guarded by `"/" in s`: the part before the first
slash and everything after it, or none when the string has no slash. -/
def splitFirstSlash : List Char → Option (List Char × List Char)
  | [] => Option.none
  | c :: rest =>
      if c = '/' then some ([], rest)
      else
        match splitFirstSlash rest with
        | some (l, r) => some (c :: l, r)
        | Option.none => Option.none

/- ===== Configuration (`CursorApiConfig`, lines 44-50) ===== -/

/-- `CursorApiConfig`: immutable configuration created at process start. -/
structure CursorApiConfig where
  api_key : String
  base_url : String := "https://api.cursor.com"
  timeout : Nat := 30
  max_retries : Nat := 3

/- ===== Transport session lifecycle (`_ensure_session`, `cleanup`) ===== -/

/-- An `aiohttp.ClientSession` object: all that matters for the lifecycle
contract is whether it has been closed. -/
structure ClientSession where
  closed : Bool
deriving DecidableEq

/-- `_ensure_session` (lines 553-572): the session reference `self.session`
is `Option ClientSession`; a new live session is created only when the
reference is `None`.  Any existing object - live or already closed - is
left untouched. -/
def ensureSession : Option ClientSession → Option ClientSession
  | Option.none => some { closed := false }
  | some s => some s

/-- `aiohttp.ClientSession.close()`: closes the session; closing an already
closed session is a no-op. -/
def sessionClose (_s : ClientSession) : ClientSession := { closed := true }

/-- `cleanup` (lines 1182-1186): `if self.session: await self.session.close()`.
The reference itself is never reset to `None`. -/
def cleanup : Option ClientSession → Option ClientSession
  | Option.none => Option.none
  | some s => some (sessionClose s)

/- ===== Retrying request executor (`_make_api_request`, lines 574-603) ===== -/

/-- What the transport produces for one attempt: a decoded HTTP response, or a
connection-level fault (`aiohttp.ClientError`). -/
inductive TransportEvent where
  | http (status : Nat) (body : Json)
  | clientError (message : String)

/-- How `_make_api_request` terminates: decoded 200/201 body, the
authentication exception (401), the generic API-error exception (other
statuses), the network-error exception after the last attempt, or the generic
"failed to complete request" exception after the retry loop is exhausted. -/
inductive ApiOutcome where
  | ok (body : Json)
  | authFailed
  | apiError (status : Nat) (body : Json)
  | networkError (message : String)
  | exhausted

/-- Observable trace of one `_make_api_request` call: its outcome, how many
attempts were issued to the transport, and the sequence of backoff sleeps. -/
structure RequestTrace where
  outcome : ApiOutcome
  attempts : Nat
  sleeps : List Nat

/-- The `for attempt in range(max_retries)` loop of `_make_api_request`.
`fuel` is the number of remaining iterations and `attempt` the loop index;
`lastAttempt = max_retries - 1` mirrors the `attempt == max_retries - 1`
check on the network-fault path.  HTTP 200/201 returns the body; 401 raises
immediately; 429 sleeps `2 ^ attempt` and retries; any other status raises
immediately; a client error retries after `2 ^ attempt` except on the final
attempt.  Falling off the loop raises the generic failure. -/
def requestLoop (transport : Nat → TransportEvent) (lastAttempt : Nat) :
    Nat → Nat → RequestTrace
  | 0, attempt => ⟨ApiOutcome.exhausted, attempt, []⟩
  | fuel + 1, attempt =>
      match transport attempt with
      | TransportEvent.http status body =>
          if status = 200 ∨ status = 201 then ⟨ApiOutcome.ok body, attempt + 1, []⟩
          else if status = 401 then ⟨ApiOutcome.authFailed, attempt + 1, []⟩
          else if status = 429 then
            let rest := requestLoop transport lastAttempt fuel (attempt + 1)
            ⟨rest.outcome, rest.attempts, 2 ^ attempt :: rest.sleeps⟩
          else ⟨ApiOutcome.apiError status body, attempt + 1, []⟩
      | TransportEvent.clientError msg =>
          if attempt = lastAttempt then ⟨ApiOutcome.networkError msg, attempt + 1, []⟩
          else
            let rest := requestLoop transport lastAttempt fuel (attempt + 1)
            ⟨rest.outcome, rest.attempts, 2 ^ attempt :: rest.sleeps⟩

/-- `_make_api_request`: run the retry loop from attempt 0 with
`max_retries` iterations available. -/
def makeApiRequest (cfg : CursorApiConfig) (transport : Nat → TransportEvent) :
    RequestTrace :=
  requestLoop transport (cfg.max_retries - 1) cfg.max_retries 0

/- ===== Cache validity (`_is_cache_valid`, lines 86-90) ===== -/

/-- `self._cache_duration = 300` (line 81). -/
def cacheDuration : Nat := 300

/-- `_is_cache_valid`: a `None` timestamp is invalid; otherwise the entry is
valid iff `time.time() - cache_timestamp < self._cache_duration`. -/
def isCacheValid (now : Nat) (cacheTimestamp : Option Nat) : Bool :=
  match cacheTimestamp with
  | Option.none => false
  | some t => (now : Int) - (t : Int) < (cacheDuration : Int)

/- ===== Repository URL parsing (`_extract_repo_info`, lines 102-114) ===== -/

/-- `_extract_repo_info`: if `"github.com" in repository_url`, strip all
occurrences of the two scheme+host forms and trailing slashes and split on the
first `/` into owner and repo; otherwise, and when no slash remains, raise
`ValueError` (modelled as `none`). -/
def extractRepoInfo (repositoryUrl : String) : Option (String × String) :=
  if strContains repositoryUrl ("github.com") then
    let parts := rstripSlashes (pyReplace
      (pyReplace repositoryUrl.data ("https://github.com/") (""))
      ("http://github.com/") (""))
    match splitFirstSlash parts with
    | some (owner, repo) => some (String.mk owner, String.mk repo)
    | Option.none => Option.none
  else Option.none

/- ===== Models handler (`_list_available_models`, lines 848-891) ===== -/

/-- The result dictionary of `_list_available_models`: keys of the success
dict and of the failure dict; `Option` marks keys absent in one variant. -/
structure ModelsResult where
  success : Bool
  models : List Json
  total_models : Option Nat
  recommended : Option Json
  error : Option String
  message : String

/-- The `_models_cache` and `_models_cache_timestamp` fields (lines 75, 78). -/
structure ModelsState where
  cache : Option ModelsResult
  timestamp : Option Nat

/-- One `_list_available_models` call: the returned envelope, the state after
the call, and whether the network fetch (`_make_api_request`) was invoked. -/
structure ModelsCall where
  result : ModelsResult
  state : ModelsState
  fetched : Bool

/-- The hardcoded fallback model list (lines 886-890). -/
def fallbackModels : List Json :=
  [Json.str ("claude-4-sonnet-thinking"), Json.str ("o3"), Json.str ("claude-4-opus-thinking")]

/-- The `try`/`except` body of `_list_available_models` (lines 855-891): on a
successful fetch build the success envelope and cache it with the current
time; on an exception return the cached envelope if any prior entry exists,
else the hardcoded fallback envelope.  Nothing is cached on failure. -/
def modelsRefresh (st : ModelsState) (now : Nat) (fetch : Except String Json) :
    ModelsCall :=
  match fetch with
  | Except.ok response =>
      let models := response.getArrD ("models")
      let result : ModelsResult :=
        { success := true
          models := models
          total_models := some models.length
          recommended := some (match models with | [] => Json.null | m :: _ => m)
          error := Option.none
          message := "Retrieved " ++ toString models.length ++ " available models" }
      ⟨result, ⟨some result, some now⟩, true⟩
  | Except.error e =>
      match st.cache with
      | some cached => ⟨cached, st, true⟩
      | Option.none =>
          ⟨{ success := false
             models := fallbackModels
             total_models := Option.none
             recommended := Option.none
             error := some e
             message := "Failed to get available models" }, st, true⟩

/-- `_list_available_models`: serve from cache when `force_refresh` is unset,
the timestamp is valid and a (necessarily non-empty, hence truthy) cached dict
exists; otherwise refresh. -/
def listAvailableModels (st : ModelsState) (now : Nat)
    (fetch : Except String Json) (forceRefresh : Bool) : ModelsCall :=
  match st.cache with
  | some cached =>
      if !forceRefresh && isCacheValid now st.timestamp then ⟨cached, st, false⟩
      else modelsRefresh st now fetch
  | Option.none => modelsRefresh st now fetch

/- ===== Repositories handler (`_list_repositories`, lines 893-931) ===== -/

/-- The result dictionary of `_list_repositories`. -/
structure ReposResult where
  success : Bool
  repositories : List Json
  total_repositories : Option Nat
  error : Option String
  message : String

/-- The `_repositories_cache` and `_repositories_cache_timestamp` fields. -/
structure ReposState where
  cache : Option ReposResult
  timestamp : Option Nat

/-- One `_list_repositories` call. -/
structure ReposCall where
  result : ReposResult
  state : ReposState
  fetched : Bool

/-- The `try`/`except` body of `_list_repositories` (lines 900-931). -/
def reposRefresh (st : ReposState) (now : Nat) (fetch : Except String Json) :
    ReposCall :=
  match fetch with
  | Except.ok response =>
      let repositories := response.getArrD ("repositories")
      let result : ReposResult :=
        { success := true
          repositories := repositories
          total_repositories := some repositories.length
          error := Option.none
          message := "Retrieved " ++ toString repositories.length ++ " accessible repositories" }
      ⟨result, ⟨some result, some now⟩, true⟩
  | Except.error e =>
      match st.cache with
      | some cached => ⟨cached, st, true⟩
      | Option.none =>
          ⟨{ success := false
             repositories := []
             total_repositories := Option.none
             error := some e
             message := "Failed to get accessible repositories" }, st, true⟩

/-- `_list_repositories` (lines 893-931). -/
def listRepositories (st : ReposState) (now : Nat)
    (fetch : Except String Json) (forceRefresh : Bool) : ReposCall :=
  match st.cache with
  | some cached =>
      if !forceRefresh && isCacheValid now st.timestamp then ⟨cached, st, false⟩
      else reposRefresh st now fetch
  | Option.none => reposRefresh st now fetch

/- ===== Branches handler (`_list_repository_branches`, lines 116-205) ===== -/

/-- The result dictionary of `_list_repository_branches`. -/
structure BranchesResult where
  success : Bool
  repository : String
  owner : Option String
  repo : Option String
  branches : List Json
  total_branches : Option Nat
  error : Option String
  message : String

/-- The per-repository `_branches_cache` and `_branches_cache_timestamp`
dicts (lines 77, 80), keyed by `owner/repo`. -/
structure BranchesState where
  cache : List (String × BranchesResult)
  timestamp : List (String × Nat)

/-- One `_list_repository_branches` call. -/
structure BranchesCall where
  result : BranchesResult
  state : BranchesState
  fetched : Bool

/-- What the GitHub branches fetch produces: an HTTP response (decoded JSON
body, raw text) or a raised exception (network fault and the like). -/
inductive GithubFetch where
  | resp (status : Nat) (body : Json) (text : String)
  | failure (message : String)

/-- The common fallback branch list (lines 166, 203). -/
def commonBranches : List Json :=
  [Json.str ("main"), Json.str ("master"), Json.str ("develop")]

/-- The fallback branch list used on auth or unexpected GitHub errors
(lines 174, 183). -/
def commonBranchesAuth : List Json :=
  [Json.str ("main"), Json.str ("master"), Json.str ("develop"), Json.str ("feature/new-feature")]

/-- `[branch["name"] for branch in branches_data]` over a decoded list: any
non-object entry or missing `name` key raises (modelled as `none`, routed to
the exception path). -/
def branchNamesFrom : List Json → Option (List Json)
  | [] => some []
  | item :: rest =>
      match item.lookup ("name"), branchNamesFrom rest with
      | some v, some vs => some (v :: vs)
      | _, _ => Option.none

/-- The comprehension applied to the whole decoded body: iterating a non-list
body likewise ends in a raised exception. -/
def extractBranchNames : Json → Option (List Json)
  | Json.arr items => branchNamesFrom items
  | _ => Option.none

/-- The `except` block of `_list_repository_branches` (lines 187-205): return
the cached entry for the key if one exists, else the common-branches fallback
envelope. -/
def branchesException (st : BranchesState) (repositoryUrl cacheKey errMsg : String) :
    BranchesCall :=
  match dictGet st.cache cacheKey with
  | some cached => ⟨cached, st, true⟩
  | Option.none =>
      ⟨{ success := false
         error := some errMsg
         repository := repositoryUrl
         owner := Option.none
         repo := Option.none
         branches := commonBranches
         total_branches := Option.none
         message := "Failed to fetch branches: " ++ errMsg }, st, true⟩

/-- The GitHub fetch and status dispatch of `_list_repository_branches`
(lines 139-205): 200 builds and caches the success envelope; 404 returns the
three common branches; 401 and any other status return the four-entry list;
a raised exception goes through the stale-cache-then-fallback path.  Only the
200 branch writes to the cache. -/
def branchesRefresh (st : BranchesState) (now : Nat) (fetch : GithubFetch)
    (repositoryUrl owner repo cacheKey : String) : BranchesCall :=
  match fetch with
  | GithubFetch.resp status body text =>
      if status = 200 then
        match extractBranchNames body with
        | some branches =>
            let result : BranchesResult :=
              { success := true
                repository := repositoryUrl
                owner := some owner
                repo := some repo
                branches := branches
                total_branches := some branches.length
                error := Option.none
                message := "Retrieved " ++ toString branches.length ++ " branches for "
                  ++ owner ++ "/" ++ repo }
            ⟨result, ⟨dictSet st.cache cacheKey result, dictSet st.timestamp cacheKey now⟩, true⟩
        | Option.none => branchesException st repositoryUrl cacheKey ("malformed branches payload")
      else if status = 404 then
        ⟨{ success := false
           error := some ("Repository not found or not accessible")
           repository := repositoryUrl
           owner := Option.none
           repo := Option.none
           branches := commonBranches
           total_branches := Option.none
           message := "Repository " ++ owner ++ "/" ++ repo
             ++ " not found or not accessible. Using common branch names." }, st, true⟩
      else if status = 401 then
        ⟨{ success := false
           error := some ("Authentication required for private repository")
           repository := repositoryUrl
           owner := Option.none
           repo := Option.none
           branches := commonBranchesAuth
           total_branches := Option.none
           message := "Private repository " ++ owner ++ "/" ++ repo
             ++ " requires GitHub token. Using common branch names." }, st, true⟩
      else
        ⟨{ success := false
           error := some ("GitHub API error: " ++ toString status)
           repository := repositoryUrl
           owner := Option.none
           repo := Option.none
           branches := commonBranchesAuth
           total_branches := Option.none
           message := "Failed to fetch branches: " ++ text
             ++ ". Using common branch names." }, st, true⟩
  | GithubFetch.failure e => branchesException st repositoryUrl cacheKey e

/-- `_list_repository_branches` (lines 116-205): parse the repository URL
(a parse failure raises, and the exception handler, re-parsing the same URL,
falls through to the fallback envelope); serve a valid cached entry unless
`force_refresh` is set; otherwise fetch from GitHub. -/
def listRepositoryBranches (st : BranchesState) (now : Nat) (fetch : GithubFetch)
    (forceRefresh : Bool) (repositoryUrl : String) : BranchesCall :=
  match extractRepoInfo repositoryUrl with
  | Option.none =>
      ⟨{ success := false
         error := some ("Invalid repository URL: " ++ repositoryUrl)
         repository := repositoryUrl
         owner := Option.none
         repo := Option.none
         branches := commonBranches
         total_branches := Option.none
         message := "Failed to fetch branches: Invalid repository URL: " ++ repositoryUrl },
       st, false⟩
  | some (owner, repo) =>
      let cacheKey := owner ++ "/" ++ repo
      match dictGet st.cache cacheKey with
      | some cached =>
          if !forceRefresh && isCacheValid now (dictGet st.timestamp cacheKey) then
            ⟨cached, st, false⟩
          else branchesRefresh st now fetch repositoryUrl owner repo cacheKey
      | Option.none => branchesRefresh st now fetch repositoryUrl owner repo cacheKey

/- ===== Agent registry (`BackgroundAgent`, lines 52-63) ===== -/

/-- The `BackgroundAgent` dataclass. -/
structure BackgroundAgent where
  agent_id : String
  status : String
  repository_url : String
  prompt : String
  branch : Option String
  model : Option String
  created_at : Option String
  updated_at : Option String
  progress : Option Json

/-- `self.agents`: the registry dict from agent id to record (line 72). -/
def AgentMap : Type := List (String × BackgroundAgent)

/- ===== Usage handler (`_get_api_usage`, lines 822-846) ===== -/

/-- The result dictionary of `_get_api_usage`. -/
structure UsageResult where
  success : Bool
  usage : Json
  limits : Option Json
  billing_period : Option Json
  remaining_quota : Option Json
  reset_date : Option Json
  error : Option String
  message : Option String

/-- `_get_api_usage`: on success echo the usage fields of the response; on
failure return `success = False` together with degraded usage counts computed
from the local registry (running agents and total records). -/
def getApiUsage (agents : AgentMap) (apiResult : Except String Json) : UsageResult :=
  match apiResult with
  | Except.ok response =>
      { success := true
        usage := response.getD ("usage") (Json.obj [])
        limits := some (response.getD ("limits") (Json.obj []))
        billing_period := some (response.getD ("billing_period") (Json.obj []))
        remaining_quota := some (response.getD ("remaining_quota") (Json.obj []))
        reset_date := some (response.getD ("reset_date") Json.null)
        error := Option.none
        message := Option.none }
  | Except.error e =>
      { success := false
        usage := Json.obj
          [("active_agents",
            Json.num ((agents.filter (fun p => p.2.status = "running")).length : Int)),
           ("total_agents_created", Json.num (agents.length : Int))]
        limits := Option.none
        billing_period := Option.none
        remaining_quota := Option.none
        reset_date := Option.none
        error := some e
        message := some ("Failed to get API usage information") }

/- ===== Create handler (`_create_background_agent`, lines 605-666) ===== -/

/-- The arguments consumed by `_create_background_agent`. -/
structure CreateArgs where
  repository_url : String
  prompt : String
  branch : Option String
  model : Option String

/-- The result dictionary of `_create_background_agent`. -/
structure CreateResult where
  success : Bool
  agent_id : Option String
  status : Option String
  repository_url : Option String
  branch : Option String
  model : Option String
  created_at : Option String
  error : Option String
  message : String

/-- `_create_background_agent`: on API success build the agent record from the
response (synthesizing an id and creation time when absent), store it in the
registry, and return the success envelope; on failure return the failure
envelope and leave the registry untouched.  `synthId` stands for the
timestamp-derived fallback id and `nowIso` for `datetime.utcnow()`. -/
def createBackgroundAgent (agents : AgentMap) (args : CreateArgs)
    (apiResult : Except String Json) (synthId nowIso : String) :
    CreateResult × AgentMap :=
  match apiResult with
  | Except.ok response =>
      let agent : BackgroundAgent :=
        { agent_id := response.getStrD ("id") synthId
          status := response.getStrD ("status") ("CREATING")
          repository_url := args.repository_url
          prompt := args.prompt
          branch := some (args.branch.getD ("main"))
          model := some (args.model.getD ("claude-3-5-sonnet"))
          created_at := some (response.getStrD ("createdAt") nowIso)
          updated_at := Option.none
          progress := Option.none }
      ({ success := true
         agent_id := some agent.agent_id
         status := some agent.status
         repository_url := some agent.repository_url
         branch := agent.branch
         model := agent.model
         created_at := agent.created_at
         error := Option.none
         message := "Background agent created successfully. Agent will work autonomously on '"
           ++ args.prompt ++ "'" },
       dictSet agents agent.agent_id agent)
  | Except.error e =>
      ({ success := false
         agent_id := Option.none
         status := Option.none
         repository_url := Option.none
         branch := Option.none
         model := Option.none
         created_at := Option.none
         error := some e
         message := "Failed to create background agent. Check your API key and repository access." },
       agents)

/- ===== Status handler (`_get_agent_status`, lines 668-701) ===== -/

/-- The result dictionary of `_get_agent_status`. -/
structure StatusResult where
  success : Bool
  agent_id : Option String
  status : Option Json
  progress : Option Json
  repository_url : Option Json
  branch : Option Json
  created_at : Option Json
  updated_at : Option Json
  logs : Option Json
  error : Option String
  message : Option String

/-- `_get_agent_status`: fetch the remote status; if the registry holds a
record for the id, merge `status` (default: the old status), `progress`
(default: the old progress) and the refreshed `updated_at` into it, leaving
every other field untouched; return the envelope built from the response.
On failure return the failure envelope and leave the registry untouched. -/
def getAgentStatus (agents : AgentMap) (agentId : String)
    (apiResult : Except String Json) (nowIso : String) :
    StatusResult × AgentMap :=
  match apiResult with
  | Except.ok response =>
      let agents' : AgentMap :=
        match dictGet agents agentId with
        | some agent =>
            dictSet agents agentId
              { agent with
                status := response.getStrD ("status") agent.status
                progress :=
                  (match response.lookup ("progress") with
                   | some v => some v
                   | Option.none => agent.progress)
                updated_at := some nowIso }
        | Option.none => agents
      ({ success := true
         agent_id := some agentId
         status := some (response.getD ("status") (Json.str ("unknown")))
         progress := some (response.getD ("progress") (Json.obj []))
         repository_url := some (response.getD ("repository_url") Json.null)
         branch := some (response.getD ("branch") Json.null)
         created_at := some (response.getD ("created_at") Json.null)
         updated_at := some (response.getD ("updated_at") Json.null)
         logs := some (response.getD ("logs") (Json.arr []))
         error := Option.none
         message := Option.none }, agents')
  | Except.error e =>
      ({ success := false
         agent_id := Option.none
         status := Option.none
         progress := Option.none
         repository_url := Option.none
         branch := Option.none
         created_at := Option.none
         updated_at := Option.none
         logs := Option.none
         error := some e
         message := some ("Failed to get status for agent " ++ agentId) }, agents)

/- ===== Helper lemmas ===== -/

theorem dictGet_dictSet_self {α : Type} (m : List (String × α)) (k : String) (v : α) :
    dictGet (dictSet m k v) k = some v := by
  induction m with
  | nil => simp [dictGet, dictSet]
  | cons hd tl ih =>
      by_cases h : hd.1 = k
      · simp [dictSet, dictGet, h]
      · simp only [dictSet]
        rw [if_neg h]
        simp [dictGet, h, ih]

theorem dictGet_dictSet_ne {α : Type} (m : List (String × α)) (k k' : String) (v : α)
    (h : k ≠ k') : dictGet (dictSet m k v) k' = dictGet m k' := by
  induction m with
  | nil => simp [dictGet, dictSet, h]
  | cons hd tl ih =>
      by_cases hk : hd.1 = k
      · simp only [dictSet]
        rw [if_pos hk]
        simp [dictGet, h, hk]
      · simp only [dictSet]
        rw [if_neg hk]
        simp only [dictGet, ih]

/-- A transport answering 429 on every attempt exhausts the whole retry loop. -/
theorem requestLoop_sustained_429 (transport : Nat → TransportEvent) (lastAttempt : Nat)
    (h : ∀ i, ∃ b, transport i = TransportEvent.http 429 b) :
    ∀ fuel attempt,
      (requestLoop transport lastAttempt fuel attempt).outcome = ApiOutcome.exhausted := by
  intro fuel
  induction fuel with
  | zero => intro attempt; rfl
  | succ n ih =>
      intro attempt
      obtain ⟨b, hb⟩ := h attempt
      rw [requestLoop, hb]
      norm_num
      exact ih (attempt + 1)

/-- A valid cached models entry is served as-is, without touching state or
network, whenever `force_refresh` is unset. -/
theorem models_cache_hit (st : ModelsState) (r : ModelsResult) (t now : Nat)
    (fetch : Except String Json)
    (hc : st.cache = some r) (ht : st.timestamp = some t)
    (hwin : (now : Int) - (t : Int) < 300) :
    listAvailableModels st now fetch false = ⟨r, st, false⟩ := by
  have hv : isCacheValid now st.timestamp = true := by
    rw [ht]
    simp only [isCacheValid, cacheDuration, decide_eq_true_eq]
    exact_mod_cast hwin
  unfold listAvailableModels
  rw [hc, hv]
  simp

/-- A successful refresh from an empty models cache stores the freshly built
envelope with the current timestamp. -/
theorem models_refresh_ok (st : ModelsState) (now : Nat) (body : Json) (fr : Bool)
    (h : st.cache = Option.none) :
    ∃ R : ModelsResult,
      listAvailableModels st now (Except.ok body) fr = ⟨R, ⟨some R, some now⟩, true⟩ ∧
      R.success = true := by
  unfold listAvailableModels
  rw [h]
  exact ⟨_, rfl, rfl⟩

/-- A failing refresh serves the cached models entry when one exists. -/
theorem models_error_stale (st : ModelsState) (now : Nat) (fr : Bool) (e : String)
    (r : ModelsResult) (hc : st.cache = some r) :
    (listAvailableModels st now (Except.error e) fr).result = r := by
  unfold listAvailableModels
  rw [hc]
  by_cases hcond : (!fr && isCacheValid now st.timestamp) = true
  · simp [hcond]
  · simp only [Bool.not_eq_true] at hcond
    simp [hcond, modelsRefresh, hc]

/-- A failing refresh with no prior models entry yields the hardcoded
fallback envelope. -/
theorem models_error_fallback (st : ModelsState) (now : Nat) (fr : Bool) (e : String)
    (hc : st.cache = Option.none) :
    (listAvailableModels st now (Except.error e) fr).result =
      ⟨false, fallbackModels, Option.none, Option.none, some e,
       "Failed to get available models"⟩ := by
  unfold listAvailableModels
  rw [hc]
  simp [modelsRefresh, hc]

/-- A failing refresh never changes the models cache state. -/
theorem models_error_state (st : ModelsState) (now : Nat) (fr : Bool) (e : String) :
    (listAvailableModels st now (Except.error e) fr).state = st := by
  unfold listAvailableModels
  cases hc : st.cache with
  | none => simp [modelsRefresh, hc]
  | some cached =>
      by_cases hcond : (!fr && isCacheValid now st.timestamp) = true
      · simp [hcond]
      · simp only [Bool.not_eq_true] at hcond
        simp [hcond, modelsRefresh, hc]

/-- After any models call the state is either unchanged or holds a freshly
stored success envelope. -/
theorem models_state_cases (st : ModelsState) (now : Nat) (fetch : Except String Json)
    (fr : Bool) :
    (listAvailableModels st now fetch fr).state = st ∨
    ∃ r, (listAvailableModels st now fetch fr).state.cache = some r ∧ r.success = true := by
  unfold listAvailableModels
  cases hc : st.cache with
  | none =>
      cases fetch with
      | ok body => exact Or.inr ⟨_, rfl, rfl⟩
      | error e => exact Or.inl (by simp [modelsRefresh, hc])
  | some cached =>
      by_cases hcond : (!fr && isCacheValid now st.timestamp) = true
      · exact Or.inl (by simp [hcond])
      · simp only [Bool.not_eq_true] at hcond
        cases fetch with
        | ok body => exact Or.inr (by simp [hcond, modelsRefresh])
        | error e => exact Or.inl (by simp [hcond, modelsRefresh, hc])

/-- With no cached models entry every call goes to the network. -/
theorem models_no_entry_fetches (st : ModelsState) (now : Nat)
    (fetch : Except String Json) (fr : Bool) (h : st.cache = Option.none) :
    (listAvailableModels st now fetch fr).fetched = true := by
  unfold listAvailableModels
  rw [h]
  cases fetch <;> simp [modelsRefresh, h]

/-- A valid cached repositories entry is served as-is. -/
theorem repos_cache_hit (st : ReposState) (r : ReposResult) (t now : Nat)
    (fetch : Except String Json)
    (hc : st.cache = some r) (ht : st.timestamp = some t)
    (hwin : (now : Int) - (t : Int) < 300) :
    listRepositories st now fetch false = ⟨r, st, false⟩ := by
  have hv : isCacheValid now st.timestamp = true := by
    rw [ht]
    simp only [isCacheValid, cacheDuration, decide_eq_true_eq]
    exact_mod_cast hwin
  unfold listRepositories
  rw [hc, hv]
  simp

/-- A successful refresh from an empty repositories cache stores the freshly
built envelope with the current timestamp. -/
theorem repos_refresh_ok (st : ReposState) (now : Nat) (body : Json) (fr : Bool)
    (h : st.cache = Option.none) :
    ∃ R : ReposResult,
      listRepositories st now (Except.ok body) fr = ⟨R, ⟨some R, some now⟩, true⟩ ∧
      R.success = true := by
  unfold listRepositories
  rw [h]
  exact ⟨_, rfl, rfl⟩

/-- A failing refresh serves the cached repositories entry when one exists. -/
theorem repos_error_stale (st : ReposState) (now : Nat) (fr : Bool) (e : String)
    (r : ReposResult) (hc : st.cache = some r) :
    (listRepositories st now (Except.error e) fr).result = r := by
  unfold listRepositories
  rw [hc]
  by_cases hcond : (!fr && isCacheValid now st.timestamp) = true
  · simp [hcond]
  · simp only [Bool.not_eq_true] at hcond
    simp [hcond, reposRefresh, hc]

/-- A failing refresh with no prior repositories entry yields the hardcoded
empty-list fallback envelope. -/
theorem repos_error_fallback (st : ReposState) (now : Nat) (fr : Bool) (e : String)
    (hc : st.cache = Option.none) :
    (listRepositories st now (Except.error e) fr).result =
      ⟨false, [], Option.none, some e, "Failed to get accessible repositories"⟩ := by
  unfold listRepositories
  rw [hc]
  simp [reposRefresh, hc]

/-- A failing refresh never changes the repositories cache state. -/
theorem repos_error_state (st : ReposState) (now : Nat) (fr : Bool) (e : String) :
    (listRepositories st now (Except.error e) fr).state = st := by
  unfold listRepositories
  cases hc : st.cache with
  | none => simp [reposRefresh, hc]
  | some cached =>
      by_cases hcond : (!fr && isCacheValid now st.timestamp) = true
      · simp [hcond]
      · simp only [Bool.not_eq_true] at hcond
        simp [hcond, reposRefresh, hc]

/-- After any repositories call the state is either unchanged or holds a
freshly stored success envelope. -/
theorem repos_state_cases (st : ReposState) (now : Nat) (fetch : Except String Json)
    (fr : Bool) :
    (listRepositories st now fetch fr).state = st ∨
    ∃ r, (listRepositories st now fetch fr).state.cache = some r ∧ r.success = true := by
  unfold listRepositories
  cases hc : st.cache with
  | none =>
      cases fetch with
      | ok body => exact Or.inr ⟨_, rfl, rfl⟩
      | error e => exact Or.inl (by simp [reposRefresh, hc])
  | some cached =>
      by_cases hcond : (!fr && isCacheValid now st.timestamp) = true
      · exact Or.inl (by simp [hcond])
      · simp only [Bool.not_eq_true] at hcond
        cases fetch with
        | ok body => exact Or.inr (by simp [hcond, reposRefresh])
        | error e => exact Or.inl (by simp [hcond, reposRefresh, hc])

/-- With no cached repositories entry every call goes to the network. -/
theorem repos_no_entry_fetches (st : ReposState) (now : Nat)
    (fetch : Except String Json) (fr : Bool) (h : st.cache = Option.none) :
    (listRepositories st now fetch fr).fetched = true := by
  unfold listRepositories
  rw [h]
  cases fetch <;> simp [reposRefresh, h]

/-- A valid cached branches entry for the parsed repository key is served
as-is. -/
theorem branches_cache_hit (st : BranchesState) (url owner repo : String)
    (r : BranchesResult) (t now : Nat) (gh : GithubFetch)
    (hparse : extractRepoInfo url = some (owner, repo))
    (hc : dictGet st.cache (owner ++ "/" ++ repo) = some r)
    (ht : dictGet st.timestamp (owner ++ "/" ++ repo) = some t)
    (hwin : (now : Int) - (t : Int) < 300) :
    listRepositoryBranches st now gh false url = ⟨r, st, false⟩ := by
  have hv : isCacheValid now (dictGet st.timestamp (owner ++ "/" ++ repo)) = true := by
    rw [ht]
    simp only [isCacheValid, cacheDuration, decide_eq_true_eq]
    exact_mod_cast hwin
  unfold listRepositoryBranches
  rw [hparse]
  simp [hc, hv]

/-- A successful 200 fetch with a parseable body caches a success envelope
under the repository key. -/
theorem branches_refresh_ok (st : BranchesState) (now : Nat) (body : Json)
    (text url owner repo : String) (names : List Json)
    (hparse : extractRepoInfo url = some (owner, repo))
    (hnames : extractBranchNames body = some names)
    (hmiss : dictGet st.cache (owner ++ "/" ++ repo) = Option.none) :
    ∃ R : BranchesResult,
      listRepositoryBranches st now (GithubFetch.resp 200 body text) false url =
        ⟨R, ⟨dictSet st.cache (owner ++ "/" ++ repo) R,
             dictSet st.timestamp (owner ++ "/" ++ repo) now⟩, true⟩ ∧
      R.success = true := by
  unfold listRepositoryBranches
  rw [hparse]
  simp only [hmiss]
  unfold branchesRefresh
  simp [hnames]
  exact ⟨_, ⟨rfl, rfl⟩, rfl⟩

/-- A raised exception serves the cached branches entry when one exists for
the repository key. -/
theorem branches_failure_stale (st : BranchesState) (now : Nat) (fr : Bool)
    (e url owner repo : String) (r : BranchesResult)
    (hparse : extractRepoInfo url = some (owner, repo))
    (hc : dictGet st.cache (owner ++ "/" ++ repo) = some r) :
    (listRepositoryBranches st now (GithubFetch.failure e) fr url).result = r := by
  unfold listRepositoryBranches
  rw [hparse]
  simp only [hc]
  by_cases hcond : (!fr && isCacheValid now (dictGet st.timestamp (owner ++ "/" ++ repo))) = true
  · simp [hcond]
  · simp only [Bool.not_eq_true] at hcond
    simp [hcond, branchesRefresh, branchesException, hc]

/-- A raised exception with no cached branches entry yields the
common-branches fallback envelope. -/
theorem branches_failure_fallback (st : BranchesState) (now : Nat) (fr : Bool)
    (e url owner repo : String)
    (hparse : extractRepoInfo url = some (owner, repo))
    (hmiss : dictGet st.cache (owner ++ "/" ++ repo) = Option.none) :
    (listRepositoryBranches st now (GithubFetch.failure e) fr url).result =
      ⟨false, url, Option.none, Option.none, commonBranches, Option.none, some e,
       "Failed to fetch branches: " ++ e⟩ := by
  unfold listRepositoryBranches
  rw [hparse]
  simp only [hmiss]
  simp [branchesRefresh, branchesException, hmiss]

/-- A 404 from GitHub (repository missing or inaccessible) produces the
three-entry common-branches failure envelope and leaves the state unchanged. -/
theorem branches_resp_404 (st : BranchesState) (now : Nat) (body : Json)
    (text url owner repo : String) (fr : Bool)
    (hparse : extractRepoInfo url = some (owner, repo))
    (hmiss : dictGet st.cache (owner ++ "/" ++ repo) = Option.none) :
    listRepositoryBranches st now (GithubFetch.resp 404 body text) fr url =
      ⟨{ success := false
         repository := url
         owner := Option.none
         repo := Option.none
         branches := commonBranches
         total_branches := Option.none
         error := some ("Repository not found or not accessible")
         message := "Repository " ++ owner ++ "/" ++ repo
           ++ " not found or not accessible. Using common branch names." }, st, true⟩ := by
  unfold listRepositoryBranches
  rw [hparse]
  simp only [hmiss]
  simp [branchesRefresh]

/-- A 401 from GitHub (private repository, auth signal) produces the
failure envelope whose fallback list carries the extra
`feature/new-feature` entry, and leaves the state unchanged. -/
theorem branches_resp_401 (st : BranchesState) (now : Nat) (body : Json)
    (text url owner repo : String) (fr : Bool)
    (hparse : extractRepoInfo url = some (owner, repo))
    (hmiss : dictGet st.cache (owner ++ "/" ++ repo) = Option.none) :
    listRepositoryBranches st now (GithubFetch.resp 401 body text) fr url =
      ⟨{ success := false
         repository := url
         owner := Option.none
         repo := Option.none
         branches := commonBranchesAuth
         total_branches := Option.none
         error := some ("Authentication required for private repository")
         message := "Private repository " ++ owner ++ "/" ++ repo
           ++ " requires GitHub token. Using common branch names." }, st, true⟩ := by
  unfold listRepositoryBranches
  rw [hparse]
  simp only [hmiss]
  simp [branchesRefresh]

/-- Every result of the GitHub fetch dispatch marks the network as invoked. -/
theorem branchesRefresh_fetched (st : BranchesState) (now : Nat) (fetch : GithubFetch)
    (url owner repo key : String) :
    (branchesRefresh st now fetch url owner repo key).fetched = true := by
  cases fetch with
  | failure e =>
      unfold branchesRefresh branchesException
      cases dictGet st.cache key <;> rfl
  | resp status body text =>
      by_cases h200 : status = 200
      · subst h200
        cases hn : extractBranchNames body with
        | some names => simp [branchesRefresh, hn]
        | none =>
            simp only [branchesRefresh, hn]
            unfold branchesException
            cases dictGet st.cache key <;> simp
      · by_cases h404 : status = 404
        · simp [branchesRefresh, h200, h404]
        · by_cases h401 : status = 401
          · simp [branchesRefresh, h200, h404, h401]
          · simp [branchesRefresh, h200, h404, h401]

/-- The GitHub fetch dispatch either leaves the state unchanged or stores a
success envelope under the repository key. -/
theorem branchesRefresh_state_cases (st : BranchesState) (now : Nat)
    (fetch : GithubFetch) (url owner repo key : String) :
    (branchesRefresh st now fetch url owner repo key).state = st ∨
    ∃ r, (branchesRefresh st now fetch url owner repo key).state =
        ⟨dictSet st.cache key r, dictSet st.timestamp key now⟩ ∧ r.success = true := by
  cases fetch with
  | failure e =>
      left
      unfold branchesRefresh branchesException
      cases dictGet st.cache key <;> rfl
  | resp status body text =>
      by_cases h200 : status = 200
      · subst h200
        cases hn : extractBranchNames body with
        | some names =>
            right
            simp only [branchesRefresh, hn]
            exact ⟨_, rfl, rfl⟩
        | none =>
            left
            simp only [branchesRefresh, hn]
            unfold branchesException
            cases dictGet st.cache key <;> simp
      · left
        by_cases h404 : status = 404
        · simp [branchesRefresh, h200, h404]
        · by_cases h401 : status = 401
          · simp [branchesRefresh, h200, h404, h401]
          · simp [branchesRefresh, h200, h404, h401]

/-- Any non-200 HTTP answer from GitHub leaves the branches state unchanged. -/
theorem branchesRefresh_non200_state (st : BranchesState) (now : Nat) (status : Nat)
    (body : Json) (text url owner repo key : String) (h : status ≠ 200) :
    (branchesRefresh st now (GithubFetch.resp status body text) url owner repo key).state
      = st := by
  by_cases h404 : status = 404
  · simp [branchesRefresh, h, h404]
  · by_cases h401 : status = 401
    · simp [branchesRefresh, h, h404, h401]
    · simp [branchesRefresh, h, h404, h401]

/-- After any branches call the state is either unchanged or holds one
freshly stored success envelope. -/
theorem branches_state_cases (st : BranchesState) (now : Nat) (fetch : GithubFetch)
    (fr : Bool) (url : String) :
    (listRepositoryBranches st now fetch fr url).state = st ∨
    ∃ key r, (listRepositoryBranches st now fetch fr url).state =
        ⟨dictSet st.cache key r, dictSet st.timestamp key now⟩ ∧ r.success = true := by
  unfold listRepositoryBranches
  cases hp : extractRepoInfo url with
  | none => exact Or.inl rfl
  | some pr =>
      obtain ⟨owner, repo⟩ := pr
      cases hc : dictGet st.cache (owner ++ "/" ++ repo) with
      | some cached =>
          by_cases hcond :
              (!fr && isCacheValid now (dictGet st.timestamp (owner ++ "/" ++ repo))) = true
          · exact Or.inl (by simp [hc, hcond])
          · simp only [Bool.not_eq_true] at hcond
            rcases branchesRefresh_state_cases st now fetch url owner repo
                (owner ++ "/" ++ repo) with h | ⟨r, hr, hs⟩
            · exact Or.inl (by simp [hc, hcond, h])
            · exact Or.inr ⟨owner ++ "/" ++ repo, r, by simp [hc, hcond, hr], hs⟩
      | none =>
          rcases branchesRefresh_state_cases st now fetch url owner repo
              (owner ++ "/" ++ repo) with h | ⟨r, hr, hs⟩
          · exact Or.inl (by simp [hc, h])
          · exact Or.inr ⟨owner ++ "/" ++ repo, r, by simp [hc, hr], hs⟩

/-- With no cached entry for the parsed repository key every branches call
goes to the network. -/
theorem branches_no_entry_fetches (st : BranchesState) (now : Nat)
    (fetch : GithubFetch) (fr : Bool) (url owner repo : String)
    (hparse : extractRepoInfo url = some (owner, repo))
    (hmiss : dictGet st.cache (owner ++ "/" ++ repo) = Option.none) :
    (listRepositoryBranches st now fetch fr url).fetched = true := by
  unfold listRepositoryBranches
  rw [hparse]
  simp only [hmiss]
  exact branchesRefresh_fetched st now fetch url owner repo (owner ++ "/" ++ repo)

/- ===== Claim theorems ===== -/

/-- Claim C1: for every cached capability (models, repositories, and branches
keyed per repository), if a prior fetch succeeded within the freshness window
(`now - captured_at < 300`) and `force_refresh` is not set, a subsequent call
returns the stored payload unchanged and does not invoke the network refresh;
in the two-call scenario the refresh invocation count stays at 1. -/
theorem cached_hit_skips_refresh :
    (∀ (st : ModelsState) (r : ModelsResult) (t now : Nat) (fetch : Except String Json),
       st.cache = some r → st.timestamp = some t → (now : Int) - (t : Int) < 300 →
       listAvailableModels st now fetch false = ⟨r, st, false⟩) ∧
    (∀ (st : ReposState) (r : ReposResult) (t now : Nat) (fetch : Except String Json),
       st.cache = some r → st.timestamp = some t → (now : Int) - (t : Int) < 300 →
       listRepositories st now fetch false = ⟨r, st, false⟩) ∧
    (∀ (st : BranchesState) (url owner repo : String) (r : BranchesResult) (t now : Nat)
       (gh : GithubFetch),
       extractRepoInfo url = some (owner, repo) →
       dictGet st.cache (owner ++ "/" ++ repo) = some r →
       dictGet st.timestamp (owner ++ "/" ++ repo) = some t →
       (now : Int) - (t : Int) < 300 →
       listRepositoryBranches st now gh false url = ⟨r, st, false⟩) ∧
    (∀ (t0 t1 : Nat) (body : Json) (fetch2 : Except String Json),
       (t1 : Int) - (t0 : Int) < 300 →
       (listAvailableModels ⟨Option.none, Option.none⟩ t0 (Except.ok body) false).fetched
           = true ∧
       (listAvailableModels
           (listAvailableModels ⟨Option.none, Option.none⟩ t0 (Except.ok body) false).state
           t1 fetch2 false).fetched = false ∧
       (listAvailableModels
           (listAvailableModels ⟨Option.none, Option.none⟩ t0 (Except.ok body) false).state
           t1 fetch2 false).result =
         (listAvailableModels ⟨Option.none, Option.none⟩ t0 (Except.ok body) false).result) ∧
    (∀ (t0 t1 : Nat) (body : Json) (fetch2 : Except String Json),
       (t1 : Int) - (t0 : Int) < 300 →
       (listRepositories ⟨Option.none, Option.none⟩ t0 (Except.ok body) false).fetched
           = true ∧
       (listRepositories
           (listRepositories ⟨Option.none, Option.none⟩ t0 (Except.ok body) false).state
           t1 fetch2 false).fetched = false ∧
       (listRepositories
           (listRepositories ⟨Option.none, Option.none⟩ t0 (Except.ok body) false).state
           t1 fetch2 false).result =
         (listRepositories ⟨Option.none, Option.none⟩ t0 (Except.ok body) false).result) ∧
    (∀ (t0 t1 : Nat) (url owner repo text : String) (body : Json) (names : List Json)
       (gh2 : GithubFetch),
       extractRepoInfo url = some (owner, repo) →
       extractBranchNames body = some names →
       (t1 : Int) - (t0 : Int) < 300 →
       (listRepositoryBranches ⟨[], []⟩ t0 (GithubFetch.resp 200 body text) false url).fetched
           = true ∧
       (listRepositoryBranches
           (listRepositoryBranches ⟨[], []⟩ t0 (GithubFetch.resp 200 body text) false
             url).state t1 gh2 false url).fetched = false ∧
       (listRepositoryBranches
           (listRepositoryBranches ⟨[], []⟩ t0 (GithubFetch.resp 200 body text) false
             url).state t1 gh2 false url).result =
         (listRepositoryBranches ⟨[], []⟩ t0 (GithubFetch.resp 200 body text) false
           url).result) := by
  refine ⟨models_cache_hit, repos_cache_hit, branches_cache_hit, ?_, ?_, ?_⟩
  · intro t0 t1 body fetch2 hwin
    obtain ⟨R, hR, hs⟩ := models_refresh_ok ⟨Option.none, Option.none⟩ t0 body false rfl
    have hstate : (listAvailableModels ⟨Option.none, Option.none⟩ t0
        (Except.ok body) false).state = ⟨some R, some t0⟩ := by rw [hR]
    have hres : (listAvailableModels ⟨Option.none, Option.none⟩ t0
        (Except.ok body) false).result = R := by rw [hR]
    have hhit := models_cache_hit ⟨some R, some t0⟩ R t0 t1 fetch2 rfl rfl hwin
    refine ⟨by rw [hR], ?_, ?_⟩
    · rw [hstate, hhit]
    · rw [hstate, hhit, hres]
  · intro t0 t1 body fetch2 hwin
    obtain ⟨R, hR, hs⟩ := repos_refresh_ok ⟨Option.none, Option.none⟩ t0 body false rfl
    have hstate : (listRepositories ⟨Option.none, Option.none⟩ t0
        (Except.ok body) false).state = ⟨some R, some t0⟩ := by rw [hR]
    have hres : (listRepositories ⟨Option.none, Option.none⟩ t0
        (Except.ok body) false).result = R := by rw [hR]
    have hhit := repos_cache_hit ⟨some R, some t0⟩ R t0 t1 fetch2 rfl rfl hwin
    refine ⟨by rw [hR], ?_, ?_⟩
    · rw [hstate, hhit]
    · rw [hstate, hhit, hres]
  · intro t0 t1 url owner repo text body names gh2 hparse hnames hwin
    obtain ⟨R, hR, hs⟩ :=
      branches_refresh_ok ⟨[], []⟩ t0 body text url owner repo names hparse hnames rfl
    have hstate : (listRepositoryBranches ⟨[], []⟩ t0 (GithubFetch.resp 200 body text)
        false url).state =
        ⟨[(owner ++ "/" ++ repo, R)], [(owner ++ "/" ++ repo, t0)]⟩ := by rw [hR]; rfl
    have hres : (listRepositoryBranches ⟨[], []⟩ t0 (GithubFetch.resp 200 body text)
        false url).result = R := by rw [hR]
    have hhit := branches_cache_hit ⟨[(owner ++ "/" ++ repo, R)], [(owner ++ "/" ++ repo, t0)]⟩
      url owner repo R t0 t1 gh2 hparse (by simp [dictGet]) (by simp [dictGet]) hwin
    refine ⟨by rw [hR], ?_, ?_⟩
    · rw [hstate, hhit]
    · rw [hstate, hhit, hres]

/-- Witness for C1: a models entry cached at time 0 is served unchanged at
time 10 even though the fetch would fail, with no refresh invocation. -/
theorem cached_hit_skips_refresh_witness :
    listAvailableModels
        ⟨some ⟨true, [Json.str ("m")], some 1, some (Json.str ("m")), Option.none, "ok"⟩,
         some 0⟩ 10 (Except.error ("down")) false =
      ⟨⟨true, [Json.str ("m")], some 1, some (Json.str ("m")), Option.none, "ok"⟩,
       ⟨some ⟨true, [Json.str ("m")], some 1, some (Json.str ("m")), Option.none, "ok"⟩,
        some 0⟩, false⟩ :=
  cached_hit_skips_refresh.1 _ _ 0 10 _ rfl rfl (by decide)

/-- Claim C3: for every cached capability, when a refresh attempt fails
(raises) and any prior entry exists for the key - even one past the freshness
window, and also under `force_refresh` - the call returns that stale stored
payload instead of raising; only with no prior entry does the failure fall
through to the hardcoded default envelope. -/
theorem stale_cache_on_refresh_failure :
    (∀ (st : ModelsState) (now : Nat) (fr : Bool) (e : String) (r : ModelsResult),
       st.cache = some r → (listAvailableModels st now (Except.error e) fr).result = r) ∧
    (∀ (st : ModelsState) (now : Nat) (fr : Bool) (e : String),
       st.cache = Option.none →
       (listAvailableModels st now (Except.error e) fr).result =
         ⟨false, fallbackModels, Option.none, Option.none, some e,
          "Failed to get available models"⟩) ∧
    (∀ (st : ReposState) (now : Nat) (fr : Bool) (e : String) (r : ReposResult),
       st.cache = some r → (listRepositories st now (Except.error e) fr).result = r) ∧
    (∀ (st : ReposState) (now : Nat) (fr : Bool) (e : String),
       st.cache = Option.none →
       (listRepositories st now (Except.error e) fr).result =
         ⟨false, [], Option.none, some e, "Failed to get accessible repositories"⟩) ∧
    (∀ (st : BranchesState) (now : Nat) (fr : Bool) (e url owner repo : String)
       (r : BranchesResult),
       extractRepoInfo url = some (owner, repo) →
       dictGet st.cache (owner ++ "/" ++ repo) = some r →
       (listRepositoryBranches st now (GithubFetch.failure e) fr url).result = r) ∧
    (∀ (st : BranchesState) (now : Nat) (fr : Bool) (e url owner repo : String),
       extractRepoInfo url = some (owner, repo) →
       dictGet st.cache (owner ++ "/" ++ repo) = Option.none →
       (listRepositoryBranches st now (GithubFetch.failure e) fr url).result =
         ⟨false, url, Option.none, Option.none, commonBranches, Option.none, some e,
          "Failed to fetch branches: " ++ e⟩) :=
  ⟨models_error_stale, models_error_fallback, repos_error_stale, repos_error_fallback,
   branches_failure_stale, branches_failure_fallback⟩

/-- Witness for C3: an entry cached at time 0, expired at time 1000 and
bypassed by `force_refresh`, is still served when the refresh fails. -/
theorem stale_cache_on_refresh_failure_witness :
    (listAvailableModels
        ⟨some ⟨true, [], some 0, some Json.null, Option.none, "x"⟩, some 0⟩
        1000 (Except.error ("boom")) true).result =
      ⟨true, [], some 0, some Json.null, Option.none, "x"⟩ :=
  stale_cache_on_refresh_failure.1
    ⟨some ⟨true, [], some 0, some Json.null, Option.none, "x"⟩, some 0⟩
    1000 true ("boom") _ rfl

/-- Claim C2: if the transport answers 429 on the first two attempts and 200 on
the third, `_make_api_request` succeeds with the decoded 200 body after exactly
the two backoff sleeps `2 ^ 0` and `2 ^ 1`; and when every attempt up to
`max_retries` answers 429 the executor ends in the generic
"failed to complete request" failure. -/
theorem executor_rate_limit_retry :
    (∀ (cfg : CursorApiConfig) (transport : Nat → TransportEvent) (b0 b1 body : Json),
       3 ≤ cfg.max_retries →
       transport 0 = TransportEvent.http 429 b0 →
       transport 1 = TransportEvent.http 429 b1 →
       transport 2 = TransportEvent.http 200 body →
       makeApiRequest cfg transport = ⟨ApiOutcome.ok body, 3, [2 ^ 0, 2 ^ 1]⟩) ∧
    (∀ (cfg : CursorApiConfig) (transport : Nat → TransportEvent),
       (∀ i, ∃ b, transport i = TransportEvent.http 429 b) →
       (makeApiRequest cfg transport).outcome = ApiOutcome.exhausted) := by
  constructor
  · intro cfg transport b0 b1 body hmr h0 h1 h2
    obtain ⟨k, hk⟩ : ∃ k, cfg.max_retries = k + 3 := ⟨cfg.max_retries - 3, by omega⟩
    unfold makeApiRequest
    rw [hk, show k + 3 = (k + 2) + 1 from by omega]
    rw [requestLoop, h0]
    norm_num
    rw [show k + 2 = (k + 1) + 1 from by omega]
    rw [requestLoop, h1]
    norm_num
    rw [requestLoop, h2]
    norm_num
  · intro cfg transport h
    exact requestLoop_sustained_429 transport (cfg.max_retries - 1) h cfg.max_retries 0

/-- Witness for C2: with the default configuration (`max_retries = 3`), a
transport answering 429, 429, 200 yields the 200 body after sleeps 1 and 2,
and an always-429 transport ends in the generic failure. -/
theorem executor_rate_limit_retry_witness :
    makeApiRequest { api_key := "k" }
        (fun t => if t < 2 then TransportEvent.http 429 Json.null
                  else TransportEvent.http 200 (Json.str ("done"))) =
      ⟨ApiOutcome.ok (Json.str ("done")), 3, [2 ^ 0, 2 ^ 1]⟩ ∧
    (makeApiRequest { api_key := "k" }
        (fun _ => TransportEvent.http 429 Json.null)).outcome = ApiOutcome.exhausted :=
  ⟨executor_rate_limit_retry.1 _ _ _ _ _ (by decide) rfl rfl rfl,
   executor_rate_limit_retry.2 _ _ (fun _ => ⟨Json.null, rfl⟩)⟩

/-- Claim C6: a 401 response makes `_make_api_request` raise the
authentication failure on the first attempt: one attempt, no sleeps. -/
theorem executor_auth_failure_no_retry
    (cfg : CursorApiConfig) (transport : Nat → TransportEvent) (b : Json)
    (hmr : 1 ≤ cfg.max_retries)
    (h0 : transport 0 = TransportEvent.http 401 b) :
    makeApiRequest cfg transport = ⟨ApiOutcome.authFailed, 1, []⟩ := by
  obtain ⟨k, hk⟩ : ∃ k, cfg.max_retries = k + 1 := ⟨cfg.max_retries - 1, by omega⟩
  unfold makeApiRequest
  rw [hk]
  rw [requestLoop, h0]
  norm_num

/-- Witness for C6 at the default configuration and a constant-401 transport. -/
theorem executor_auth_failure_no_retry_witness :
    makeApiRequest { api_key := "k" } (fun _ => TransportEvent.http 401 Json.null) =
      ⟨ApiOutcome.authFailed, 1, []⟩ :=
  executor_auth_failure_no_retry _ _ _ (by decide) rfl

/-- Counterexample to C5: the parser does not reject every input outside the
`http(s)://github.com/<owner>/<repo>` shape.  The substring test
`"github.com" in repository_url` also fires on this non-GitHub URL, the two
prefix replacements find nothing to strip, and splitting on the first slash
accepts it, yielding a garbage owner/repo pair instead of the
invalid-repository-URL failure the claim requires. -/
theorem extract_repo_info_counterexample :
    extractRepoInfo ("https://evil.com/github.com/x") =
      some (("https:"), ("/evil.com/github.com/x")) := by decide

/-- Claim C5 (amended): the parser maps well-formed GitHub URLs to their
(owner, repo) pair - stripping scheme, host and trailing slashes and splitting
on the first remaining slash - and fails on every input that does not contain
the substring `github.com` (in particular the gitlab example) as well as when
no slash survives the stripping; but inputs that merely contain `github.com`
as a substring can also be accepted, so it does not fail on every input
outside the claimed shape. -/
theorem extract_repo_info_amended :
    extractRepoInfo ("https://github.com/acme/widgets") = some (("acme"), ("widgets")) ∧
    extractRepoInfo ("http://github.com/acme/widgets") = some (("acme"), ("widgets")) ∧
    extractRepoInfo ("https://github.com/acme/widgets/") = some (("acme"), ("widgets")) ∧
    extractRepoInfo ("https://github.com/acme/widgets/tree/main") =
      some (("acme"), ("widgets/tree/main")) ∧
    extractRepoInfo ("https://gitlab.com/acme/widgets") = Option.none ∧
    (∀ url : String, strContains url ("github.com") = false →
       extractRepoInfo url = Option.none) ∧
    extractRepoInfo ("https://github.com/acmewidgets") = Option.none := by
  refine ⟨by decide, by decide, by decide, by decide, by decide, ?_, by decide⟩
  intro url h
  simp [extractRepoInfo, h]

/-- Witness for C5 (amended): an input without the `github.com` substring is
rejected. -/
theorem extract_repo_info_amended_witness :
    extractRepoInfo ("ftp://example.org/a/b") = Option.none :=
  extract_repo_info_amended.2.2.2.2.2.1 ("ftp://example.org/a/b") (by decide)

/-- Counterexample to C9: after `ensure(); close()`, calling `ensure()` again
does not yield a live session.  `cleanup` closes the session object but never
resets `self.session` to `None`, so the `if self.session is None` guard in
`_ensure_session` sees the closed object and does nothing: the re-ensured
session is still closed (a ready session would have `closed := false`). -/
theorem session_reensure_counterexample :
    ensureSession (cleanup (ensureSession Option.none)) = some { closed := true } := by
  decide

/-- Claim C9 (amended): `ensure()` creates the session on its first call and
is a no-op on every later call while the session is open; `close()` is safe to
call multiple times (a second close is a no-op); and after `close()` there is
no implicit reconnect - but because the session reference is never cleared,
a renewed `ensure()` after `close()` is also a no-op on the closed object and
does not yield a live session again. -/
theorem session_lifecycle_amended :
    ensureSession Option.none = some { closed := false } ∧
    (∀ s : ClientSession, ensureSession (some s) = some s) ∧
    (∀ r : Option ClientSession, cleanup (cleanup r) = cleanup r) ∧
    ensureSession (cleanup (ensureSession Option.none)) = some { closed := true } := by
  refine ⟨rfl, fun s => rfl, ?_, rfl⟩
  intro r
  cases r <;> rfl

/-- A raised exception in the GitHub fetch dispatch leaves the state
unchanged. -/
theorem branchesRefresh_failure_state (st : BranchesState) (now : Nat)
    (e url owner repo key : String) :
    (branchesRefresh st now (GithubFetch.failure e) url owner repo key).state = st := by
  unfold branchesRefresh branchesException
  cases dictGet st.cache key <;> rfl

/-- A raised exception leaves the branches state unchanged at the handler
level. -/
theorem branches_failure_state (st : BranchesState) (now : Nat) (e : String) (fr : Bool)
    (url : String) :
    (listRepositoryBranches st now (GithubFetch.failure e) fr url).state = st := by
  unfold listRepositoryBranches
  cases hp : extractRepoInfo url with
  | none => rfl
  | some pr =>
      obtain ⟨owner, repo⟩ := pr
      have hb := branchesRefresh_failure_state st now e url owner repo (owner ++ "/" ++ repo)
      cases hc : dictGet st.cache (owner ++ "/" ++ repo) with
      | some cached =>
          by_cases hcond :
              (!fr && isCacheValid now (dictGet st.timestamp (owner ++ "/" ++ repo))) = true
          · simp [hc, hcond]
          · simp only [Bool.not_eq_true] at hcond
            simp [hc, hcond, hb]
      | none => simp [hc, hb]

/-- Any non-200 GitHub answer leaves the branches state unchanged at the
handler level. -/
theorem branches_non200_state (st : BranchesState) (now status : Nat) (body : Json)
    (text : String) (fr : Bool) (url : String) (h : status ≠ 200) :
    (listRepositoryBranches st now (GithubFetch.resp status body text) fr url).state
      = st := by
  unfold listRepositoryBranches
  cases hp : extractRepoInfo url with
  | none => rfl
  | some pr =>
      obtain ⟨owner, repo⟩ := pr
      have hb := branchesRefresh_non200_state st now status body text url owner repo
        (owner ++ "/" ++ repo) h
      cases hc : dictGet st.cache (owner ++ "/" ++ repo) with
      | some cached =>
          by_cases hcond :
              (!fr && isCacheValid now (dictGet st.timestamp (owner ++ "/" ++ repo))) = true
          · simp [hc, hcond]
          · simp only [Bool.not_eq_true] at hcond
            simp [hc, hcond, hb]
      | none => simp [hc, hb]

/-- Counterexample to C4: when the fetch fails but a stale cached entry
exists, the handler returns that cached entry unchanged - a success envelope
with `success = true` - rather than an envelope with `success = false`.
Here the models fetch succeeds at time 0, the entry expires (time 1000 is
past the 300-unit window), the refresh is invoked and fails, and the stale
entry is served: the refresh was invoked (`fetched = true`, so this is a
failing fetch, not a cache hit) yet the returned envelope has
`success = true`. -/
theorem degraded_fallback_stale_counterexample :
    (listAvailableModels
        (listAvailableModels ⟨Option.none, Option.none⟩ 0
           (Except.ok (Json.obj [(("models"), Json.arr [Json.str ("m1")])])) false).state
        1000 (Except.error ("boom")) false).fetched = true ∧
    (listAvailableModels
        (listAvailableModels ⟨Option.none, Option.none⟩ 0
           (Except.ok (Json.obj [(("models"), Json.arr [Json.str ("m1")])])) false).state
        1000 (Except.error ("boom")) false).result.success = true :=
  ⟨rfl, rfl⟩

/-- Claim C4 (amended): for every handler with a degraded-mode default
(list-models, list-repositories, list-branches, usage), when the underlying
fetch fails and no previously cached entry is available for the key, the
returned envelope has `success = false` while still carrying the best-effort
fallback payload; when a stale cached entry is available, that entry is
served unchanged - a success envelope - instead of a `success = false`
envelope. -/
theorem degraded_fallback_envelopes :
    (∀ (st : ModelsState) (now : Nat) (fr : Bool) (e : String),
       st.cache = Option.none →
       (listAvailableModels st now (Except.error e) fr).result.success = false ∧
       (listAvailableModels st now (Except.error e) fr).result.models = fallbackModels) ∧
    (∀ (st : ModelsState) (now : Nat) (fr : Bool) (e : String) (r : ModelsResult),
       st.cache = some r → (listAvailableModels st now (Except.error e) fr).result = r) ∧
    (∀ (st : ReposState) (now : Nat) (fr : Bool) (e : String),
       st.cache = Option.none →
       (listRepositories st now (Except.error e) fr).result.success = false ∧
       (listRepositories st now (Except.error e) fr).result.repositories = []) ∧
    (∀ (st : ReposState) (now : Nat) (fr : Bool) (e : String) (r : ReposResult),
       st.cache = some r → (listRepositories st now (Except.error e) fr).result = r) ∧
    (∀ (st : BranchesState) (now : Nat) (fr : Bool) (body : Json)
       (text url owner repo : String),
       extractRepoInfo url = some (owner, repo) →
       dictGet st.cache (owner ++ "/" ++ repo) = Option.none →
       (listRepositoryBranches st now (GithubFetch.resp 404 body text) fr url).result.success
           = false ∧
       (listRepositoryBranches st now (GithubFetch.resp 404 body text) fr url).result.branches
           = commonBranches) ∧
    (∀ (st : BranchesState) (now : Nat) (fr : Bool) (e url owner repo : String),
       extractRepoInfo url = some (owner, repo) →
       dictGet st.cache (owner ++ "/" ++ repo) = Option.none →
       (listRepositoryBranches st now (GithubFetch.failure e) fr url).result.success = false ∧
       (listRepositoryBranches st now (GithubFetch.failure e) fr url).result.branches
           = commonBranches) ∧
    (∀ (st : BranchesState) (now : Nat) (fr : Bool) (e url owner repo : String)
       (r : BranchesResult),
       extractRepoInfo url = some (owner, repo) →
       dictGet st.cache (owner ++ "/" ++ repo) = some r →
       (listRepositoryBranches st now (GithubFetch.failure e) fr url).result = r) ∧
    (∀ (agents : AgentMap) (e : String),
       (getApiUsage agents (Except.error e)).success = false ∧
       (getApiUsage agents (Except.error e)).usage = Json.obj
         [(("active_agents"),
           Json.num ((agents.filter (fun p => p.2.status = "running")).length : Int)),
          (("total_agents_created"), Json.num (agents.length : Int))]) := by
  refine ⟨?_, models_error_stale, ?_, repos_error_stale, ?_, ?_,
    branches_failure_stale, fun agents e => ⟨rfl, rfl⟩⟩
  · intro st now fr e hc
    rw [models_error_fallback st now fr e hc]
    exact ⟨rfl, rfl⟩
  · intro st now fr e hc
    rw [repos_error_fallback st now fr e hc]
    exact ⟨rfl, rfl⟩
  · intro st now fr body text url owner repo hparse hmiss
    rw [branches_resp_404 st now body text url owner repo fr hparse hmiss]
    exact ⟨rfl, rfl⟩
  · intro st now fr e url owner repo hparse hmiss
    rw [branches_failure_fallback st now fr e url owner repo hparse hmiss]
    exact ⟨rfl, rfl⟩

/-- Witness for C4 (amended): with an empty cache a failing models fetch
yields a `success = false` envelope that carries the hardcoded fallback
model list. -/
theorem degraded_fallback_envelopes_witness :
    (listAvailableModels ⟨Option.none, Option.none⟩ 7 (Except.error ("down")) false).result.success
        = false ∧
    (listAvailableModels ⟨Option.none, Option.none⟩ 7 (Except.error ("down")) false).result.models
        = fallbackModels :=
  degraded_fallback_envelopes.1 ⟨Option.none, Option.none⟩ 7 false ("down") rfl

/-- Claim C7: for a repository URL that parses, a branches call whose GitHub
fetch answers 404 does not raise and returns the `success = false` envelope
with branches `["main", "master", "develop"]`; when the failure is the
auth/private-repo signal 401, the extra `feature/new-feature` entry is added
to the fallback list.  (The handler is a total function, so nothing
propagates as an exception.) -/
theorem branches_inaccessible_fallback (st : BranchesState) (now : Nat) (body : Json)
    (text url owner repo : String)
    (hparse : extractRepoInfo url = some (owner, repo))
    (hmiss : dictGet st.cache (owner ++ "/" ++ repo) = Option.none) :
    listRepositoryBranches st now (GithubFetch.resp 404 body text) false url =
      ⟨{ success := false
         repository := url
         owner := Option.none
         repo := Option.none
         branches := commonBranches
         total_branches := Option.none
         error := some ("Repository not found or not accessible")
         message := "Repository " ++ owner ++ "/" ++ repo
           ++ " not found or not accessible. Using common branch names." }, st, true⟩ ∧
    listRepositoryBranches st now (GithubFetch.resp 401 body text) false url =
      ⟨{ success := false
         repository := url
         owner := Option.none
         repo := Option.none
         branches := commonBranchesAuth
         total_branches := Option.none
         error := some ("Authentication required for private repository")
         message := "Private repository " ++ owner ++ "/" ++ repo
           ++ " requires GitHub token. Using common branch names." }, st, true⟩ :=
  ⟨branches_resp_404 st now body text url owner repo false hparse hmiss,
   branches_resp_401 st now body text url owner repo false hparse hmiss⟩

/-- Witness for C7 on a concrete repository URL and an empty cache. -/
theorem branches_inaccessible_fallback_witness :
    listRepositoryBranches ⟨[], []⟩ 0 (GithubFetch.resp 404 Json.null ("nf")) false
        ("https://github.com/acme/widgets") =
      ⟨{ success := false
         repository := "https://github.com/acme/widgets"
         owner := Option.none
         repo := Option.none
         branches := commonBranches
         total_branches := Option.none
         error := some ("Repository not found or not accessible")
         message := "Repository " ++ "acme" ++ "/" ++ "widgets"
           ++ " not found or not accessible. Using common branch names." }, ⟨[], []⟩, true⟩ ∧
    listRepositoryBranches ⟨[], []⟩ 0 (GithubFetch.resp 401 Json.null ("nf")) false
        ("https://github.com/acme/widgets") =
      ⟨{ success := false
         repository := "https://github.com/acme/widgets"
         owner := Option.none
         repo := Option.none
         branches := commonBranchesAuth
         total_branches := Option.none
         error := some ("Authentication required for private repository")
         message := "Private repository " ++ "acme" ++ "/" ++ "widgets"
           ++ " requires GitHub token. Using common branch names." }, ⟨[], []⟩, true⟩ :=
  branches_inaccessible_fallback ⟨[], []⟩ 0 Json.null ("nf")
    ("https://github.com/acme/widgets") ("acme") ("widgets") (by decide) rfl

/-- Claim C10: a payload is written into a cache slot only by a successful
fetch, so stored entries are always success envelopes (`success = true`);
failure and fallback payloads are never cached - a failing call leaves the
cache state unchanged - and with no prior entry for a key, every call (hence
also the one after a failed fetch) goes to the network instead of serving the
fallback from the cache. -/
theorem cache_stores_only_success :
    (∀ (st : ModelsState) (now : Nat) (fetch : Except String Json) (fr : Bool),
       (∀ r, st.cache = some r → r.success = true) →
       ∀ r', (listAvailableModels st now fetch fr).state.cache = some r' →
         r'.success = true) ∧
    (∀ (st : ModelsState) (now : Nat) (fr : Bool) (e : String),
       (listAvailableModels st now (Except.error e) fr).state = st) ∧
    (∀ (st : ModelsState) (now : Nat) (fetch : Except String Json) (fr : Bool),
       st.cache = Option.none → (listAvailableModels st now fetch fr).fetched = true) ∧
    (∀ (st : ReposState) (now : Nat) (fetch : Except String Json) (fr : Bool),
       (∀ r, st.cache = some r → r.success = true) →
       ∀ r', (listRepositories st now fetch fr).state.cache = some r' →
         r'.success = true) ∧
    (∀ (st : ReposState) (now : Nat) (fr : Bool) (e : String),
       (listRepositories st now (Except.error e) fr).state = st) ∧
    (∀ (st : ReposState) (now : Nat) (fetch : Except String Json) (fr : Bool),
       st.cache = Option.none → (listRepositories st now fetch fr).fetched = true) ∧
    (∀ (st : BranchesState) (now : Nat) (fetch : GithubFetch) (fr : Bool) (url : String),
       (∀ k r, dictGet st.cache k = some r → r.success = true) →
       ∀ k r', dictGet (listRepositoryBranches st now fetch fr url).state.cache k = some r' →
         r'.success = true) ∧
    (∀ (st : BranchesState) (now : Nat) (e : String) (fr : Bool) (url : String),
       (listRepositoryBranches st now (GithubFetch.failure e) fr url).state = st) ∧
    (∀ (st : BranchesState) (now status : Nat) (body : Json) (text : String) (fr : Bool)
       (url : String), status ≠ 200 →
       (listRepositoryBranches st now (GithubFetch.resp status body text) fr url).state
         = st) ∧
    (∀ (st : BranchesState) (now : Nat) (fetch : GithubFetch) (fr : Bool)
       (url owner repo : String),
       extractRepoInfo url = some (owner, repo) →
       dictGet st.cache (owner ++ "/" ++ repo) = Option.none →
       (listRepositoryBranches st now fetch fr url).fetched = true) := by
  refine ⟨?_, models_error_state, models_no_entry_fetches,
    ?_, repos_error_state, repos_no_entry_fetches,
    ?_, branches_failure_state, branches_non200_state, branches_no_entry_fetches⟩
  · intro st now fetch fr hinv r' h'
    rcases models_state_cases st now fetch fr with hstate | ⟨r0, hr0, hs⟩
    · rw [hstate] at h'
      exact hinv r' h'
    · rw [hr0] at h'
      injection h' with h''
      exact h'' ▸ hs
  · intro st now fetch fr hinv r' h'
    rcases repos_state_cases st now fetch fr with hstate | ⟨r0, hr0, hs⟩
    · rw [hstate] at h'
      exact hinv r' h'
    · rw [hr0] at h'
      injection h' with h''
      exact h'' ▸ hs
  · intro st now fetch fr url hinv k r' h'
    rcases branches_state_cases st now fetch fr url with hstate | ⟨key, r0, hstate, hs⟩
    · rw [hstate] at h'
      exact hinv k r' h'
    · simp only [hstate] at h'
      by_cases hk : key = k
      · subst hk
        rw [dictGet_dictSet_self] at h'
        injection h' with h''
        exact h'' ▸ hs
      · rw [dictGet_dictSet_ne st.cache key k r0 hk] at h'
        exact hinv k r' h'

/-- Witness for C10: with no cached models entry a call - here one whose
fetch fails - goes to the network. -/
theorem cache_stores_only_success_witness :
    (listAvailableModels ⟨Option.none, Option.none⟩ 5 (Except.error ("down")) true).fetched
      = true :=
  cache_stores_only_success.2.2.1 ⟨Option.none, Option.none⟩ 5 (Except.error ("down")) true rfl

/-- Claim C8: after a create whose response carries id `a1` and a successful
get-status for `a1` whose response carries status `running`, the stored
registry record for `a1` has status `running`, the updated timestamp of the
status call, and every field set at creation - repository URL, originating
prompt, agent id, branch, model, creation timestamp - unchanged. -/
theorem status_update_preserves_creation_fields
    (agents : AgentMap) (args : CreateArgs) (response1 response2 : Json)
    (synthId nowIso nowIso2 : String)
    (hid : response1.getStrD ("id") synthId = "a1")
    (hst : response2.lookup ("status") = some (Json.str ("running"))) :
    ∃ rec : BackgroundAgent,
      dictGet (getAgentStatus
          (createBackgroundAgent agents args (Except.ok response1) synthId nowIso).2
          ("a1") (Except.ok response2) nowIso2).2 ("a1") = some rec ∧
      rec.status = "running" ∧
      rec.agent_id = "a1" ∧
      rec.repository_url = args.repository_url ∧
      rec.prompt = args.prompt ∧
      rec.branch = some (args.branch.getD ("main")) ∧
      rec.model = some (args.model.getD ("claude-3-5-sonnet")) ∧
      rec.created_at = some (response1.getStrD ("createdAt") nowIso) ∧
      rec.updated_at = some nowIso2 := by
  have hreg1 : (createBackgroundAgent agents args (Except.ok response1) synthId nowIso).2 =
      dictSet agents ("a1")
        { agent_id := "a1"
          status := response1.getStrD ("status") ("CREATING")
          repository_url := args.repository_url
          prompt := args.prompt
          branch := some (args.branch.getD ("main"))
          model := some (args.model.getD ("claude-3-5-sonnet"))
          created_at := some (response1.getStrD ("createdAt") nowIso)
          updated_at := Option.none
          progress := Option.none } := by
    simp only [createBackgroundAgent, hid]
  have hst' : ∀ d, response2.getStrD ("status") d = "running" := by
    intro d
    unfold Json.getStrD
    rw [hst]
  unfold getAgentStatus
  simp only [hreg1, dictGet_dictSet_self, hst']
  refine ⟨{ agent_id := "a1"
            status := "running"
            repository_url := args.repository_url
            prompt := args.prompt
            branch := some (args.branch.getD ("main"))
            model := some (args.model.getD ("claude-3-5-sonnet"))
            created_at := some (response1.getStrD ("createdAt") nowIso)
            updated_at := some nowIso2
            progress :=
              match response2.lookup ("progress") with
              | some v => some v
              | Option.none => Option.none },
    ?_, rfl, rfl, rfl, rfl, rfl, rfl, rfl, rfl⟩
  rfl

/-- Witness for C8 on concrete create and status responses. -/
theorem status_update_preserves_creation_fields_witness :
    ∃ rec : BackgroundAgent,
      dictGet (getAgentStatus
          (createBackgroundAgent []
             ⟨"https://github.com/acme/widgets", "add tests", Option.none, Option.none⟩
             (Except.ok (Json.obj [(("id"), Json.str ("a1"))])) ("syn") ("t1")).2
          ("a1") (Except.ok (Json.obj [(("status"), Json.str ("running"))])) ("t2")).2
          ("a1") = some rec ∧
      rec.status = "running" ∧
      rec.agent_id = "a1" ∧
      rec.repository_url = "https://github.com/acme/widgets" ∧
      rec.prompt = "add tests" ∧
      rec.branch = some ("main") ∧
      rec.model = some ("claude-3-5-sonnet") ∧
      rec.created_at = some ("t1") ∧
      rec.updated_at = some ("t2") :=
  status_update_preserves_creation_fields []
    ⟨"https://github.com/acme/widgets", "add tests", Option.none, Option.none⟩
    (Json.obj [(("id"), Json.str ("a1"))]) (Json.obj [(("status"), Json.str ("running"))])
    ("syn") ("t1") ("t2") rfl rfl

end CursorMCP
